import Mathlib

/-!
Shallow embedding of the ballbot-teensy serial protocol firmware
(src/serial.rs, src/events.rs, src/logger.rs).

The interrupt-driven USB transport is modelled as an oracle: a list of
responses, one per invocation of the underlying non-blocking
`usb::Reader::read` call.  Each response is either `ok bs` (the call
returned `Ok(bs.length)` and deposited `bs` at the front of the caller's
buffer) or `err` (the call returned `Err(_)`).  An exhausted oracle means
the FIFO stays empty, so a non-blocking read returns `Ok(0)` and a
blocking busy-retry read spins forever.

Rust `.unwrap()` / `.expect(...)` on a failed result is modelled as a
distinguished `panicked` outcome; the never-terminating busy loop as
`stalled`; `cortex_m::peripheral::SCB::sys_reset` (which never returns)
as `restarted`.
-/

/-- Wire byte `END = 0x00` (src/serial.rs). -/
def END : Nat := 0x00
/-- Wire byte `READY = 0x01` (src/serial.rs). -/
def READY : Nat := 0x01
/-- Wire byte `FUNCTION_HEADER = 0x02` (src/serial.rs). -/
def FUNCTION_HEADER : Nat := 0x02
/-- Wire byte `RETURN_HEADER = 0x03` (src/serial.rs). -/
def RETURN_HEADER : Nat := 0x03

/-- One response of the underlying non-blocking transport read. -/
inductive ReadResp
  | ok (bs : List Nat)
  | err
deriving DecidableEq, Repr

/-- The transport oracle stream: the successive responses the USB reader gives. -/
abbrev Oracle := List ReadResp

/-- Result of `read_n_blocking`. -/
inductive BRes
  | ok (bs : List Nat) (rest : Oracle)
  | err (rest : Oracle)
  | stall
deriving DecidableEq, Repr

/-- `BlockingReader::read_n`: allocate `vec![0u8; n]`, issue one
non-blocking read into it, and return the buffer whatever the count was
(an empty FIFO leaves it zero-filled).  `n = 0` short-circuits to `Ok([])`. -/
def read_n (n : Nat) (s : Oracle) : Except Unit (List Nat) × Oracle :=
  if n = 0 then (Except.ok [], s)
  else
    match s with
    | [] => (Except.ok (List.replicate n 0), [])
    | ReadResp.err :: rest => (Except.error (), rest)
    | ReadResp.ok bs :: rest =>
        (Except.ok (bs.take n ++ (List.replicate n 0).drop (min bs.length n)), rest)

/-- The busy-retry loop of `BlockingReader::read_n_blocking`:
`while self.read(&mut data)? == 0 {}`.  A zero-byte read retries with the
buffer unchanged; an error propagates; a positive count exits with the
freshly written front of the buffer. -/
def read_n_blocking_go (n : Nat) (buf : List Nat) : Oracle → BRes
  | [] => BRes.stall
  | ReadResp.err :: rest => BRes.err rest
  | ReadResp.ok bs :: rest =>
      if bs.length = 0 then read_n_blocking_go n buf rest
      else BRes.ok (bs.take n ++ buf.drop (min bs.length n)) rest

/-- `BlockingReader::read_n_blocking`: `n = 0` short-circuits, otherwise
busy-retry until the transport hands over bytes. -/
def read_n_blocking (n : Nat) (s : Oracle) : BRes :=
  if n = 0 then BRes.ok [] s
  else read_n_blocking_go n (List.replicate n 0) s

/-- The resynchronization loop of the invalid-event arm:
`while rx.read(buffer).unwrap() > 0 {}` with a one-byte buffer.
`none` models the `.unwrap()` panic on a transport error. -/
def flushBuffer : Oracle → Option Oracle
  | [] => some []
  | ReadResp.err :: _ => none
  | ReadResp.ok bs :: rest => if bs.length = 0 then some rest else flushBuffer rest

/-- A UTF-8 continuation byte (`0x80..=0xBF`). -/
def isCont (b : Nat) : Bool := 0x80 ≤ b && b ≤ 0xBF

/-- Validity check performed by `String::from_utf8` (RFC 3629: no overlong
forms, no surrogates, nothing above U+10FFFF).  `SerialComm::read` calls
`String::from_utf8(..).unwrap()` on the received name bytes, so an invalid
sequence is a panic. -/
def isValidUtf8 : List Nat → Bool
  | [] => true
  | b :: rest =>
    if b ≤ 0x7F then isValidUtf8 rest
    else if 0xC2 ≤ b && b ≤ 0xDF then
      match rest with
      | c1 :: rest2 => isCont c1 && isValidUtf8 rest2
      | [] => false
    else if b = 0xE0 then
      match rest with
      | c1 :: c2 :: rest2 => (0xA0 ≤ c1 && c1 ≤ 0xBF) && isCont c2 && isValidUtf8 rest2
      | _ => false
    else if (0xE1 ≤ b && b ≤ 0xEC) || b = 0xEE || b = 0xEF then
      match rest with
      | c1 :: c2 :: rest2 => isCont c1 && isCont c2 && isValidUtf8 rest2
      | _ => false
    else if b = 0xED then
      match rest with
      | c1 :: c2 :: rest2 => (0x80 ≤ c1 && c1 ≤ 0x9F) && isCont c2 && isValidUtf8 rest2
      | _ => false
    else if b = 0xF0 then
      match rest with
      | c1 :: c2 :: c3 :: rest2 =>
          (0x90 ≤ c1 && c1 ≤ 0xBF) && isCont c2 && isCont c3 && isValidUtf8 rest2
      | _ => false
    else if 0xF1 ≤ b && b ≤ 0xF3 then
      match rest with
      | c1 :: c2 :: c3 :: rest2 => isCont c1 && isCont c2 && isCont c3 && isValidUtf8 rest2
      | _ => false
    else if b = 0xF4 then
      match rest with
      | c1 :: c2 :: c3 :: rest2 =>
          (0x80 ≤ c1 && c1 ≤ 0x8F) && isCont c2 && isCont c3 && isValidUtf8 rest2
      | _ => false
    else false

/-- UTF-8 bytes of an ASCII string (all names occurring in the source —
"set_led", "reset", "log", level names — are ASCII, where UTF-8 is the
identity on code points). -/
def asciiBytes (s : String) : List Nat := s.data.map Char.toNat

/-- `u16::to_le_bytes` of a value already reduced below 2^16. -/
def le16bytes (n : Nat) : List Nat := [n % 256, n / 256]

/-- The mutable state the channel and handlers touch: the `ready` handshake
flag owned by `SerialComm`, and the indicator LED owned by `Hardware`
(true = lit). -/
structure CommState where
  ready : Bool
  led : Bool
deriving DecidableEq, Repr

/-- A diagnostic emitted through the `log` macros, by severity tag. -/
inductive Diag
  | error
  | warn
  | info
  | debug
  | trace
deriving DecidableEq, Repr

/-- Observable hardware actions of the command handlers. -/
inductive HwAction
  | toggle
  | setOn
  | setOff
  | delayMs (n : Nat)
  | sysReset
deriving DecidableEq, Repr

/-- Observable effects of one `read-and-dispatch` call: bytes written to the
transport, diagnostics emitted, the (name, payload) pairs reaching the
dispatch match, and hardware actions performed by handlers. -/
structure Effects where
  written : List Nat
  diags : List Diag
  dispatched : List (List Nat × List Nat)
  hw : List HwAction
deriving DecidableEq, Repr

/-- Outcome of one `SerialComm::read` call.  `ret` is a normal return to the
main loop (with the post-state and the unconsumed oracle); `panicked` is an
`.unwrap()`/`.expect()` failure unwinding out of the call; `stalled` is the
unbounded busy-retry loop on an exhausted transport; `restarted` is the
`reset` handler's `sys_reset`, which never returns. -/
inductive ReadOutcome
  | ret (st : CommState) (eff : Effects) (rest : Oracle)
  | panicked (eff : Effects)
  | stalled (eff : Effects)
  | restarted (eff : Effects)
deriving DecidableEq, Repr

def ReadOutcome.stateOf : ReadOutcome → Option CommState
  | .ret st _ _ => some st
  | _ => none

def ReadOutcome.effOf : ReadOutcome → Effects
  | .ret _ e _ => e
  | .panicked e => e
  | .stalled e => e
  | .restarted e => e

def ReadOutcome.restOf : ReadOutcome → Option Oracle
  | .ret _ _ r => some r
  | _ => none

/-- Did the operation return normally to its caller? -/
def ReadOutcome.isNormalReturn : ReadOutcome → Bool
  | .ret _ _ _ => true
  | _ => false

/-- `events::set_led` (src/events.rs): non-empty payload with head 0 clears
the LED, non-zero head sets it, empty payload toggles it; the reply payload
is always `Vec::new()`.  Returns (reply, new LED state). -/
def set_led (data : List Nat) (led : Bool) : List Nat × Bool :=
  if data ≠ [] then
    if data.headD 0 = 0 then ([], false) else ([], true)
  else ([], !led)

/-- The countdown loop of `events::reset`: `for _ in 1..12` toggling the LED
and delaying 84 ms each iteration. -/
def resetCountdown : List HwAction :=
  List.flatten ((List.range' 1 11).map fun _ => [HwAction.toggle, HwAction.delayMs 84])

/-- `events::reset` (src/events.rs): ignores its payload, runs the countdown,
then `SCB::sys_reset()` — it has return type `!` and never returns. -/
def reset (_data : List Nat) : List HwAction :=
  resetCountdown ++ [HwAction.sysReset]

namespace SerialComm

/-- The channel as created in `SerialComm::get`: `ready` starts as
`RefCell::new(false)`; the LED state is whatever the hardware is in. -/
def mkChannel (led : Bool) : CommState :=
  { ready := false, led := led }

/-- `SerialComm::ready` (the handshake reply): writes the `READY` byte and
then sets the `ready` flag.  Returns (new state, bytes written). -/
def handshakeReply (st : CommState) : CommState × List Nat :=
  ({ st with ready := true }, [READY])

/-- `SerialComm::return_event`: writes the `RETURN_HEADER` byte followed by
the raw reply bytes, with no length prefix and no `ready` check. -/
def return_event (st : CommState) (data : List Nat) : CommState × List Nat :=
  (st, RETURN_HEADER :: data)

/-- `SerialComm::call` (send-command): silently does nothing unless `ready`;
otherwise writes `FUNCTION_HEADER`, the one-byte name length (panic if the
name exceeds 255 bytes, from `try_into().expect(..)` — modelled as `none`),
the name bytes, the two-byte little-endian `data.len() as u16`, the payload
bytes, and `END`.  Returns (post-state, bytes written), or `none` for the
panic. -/
def call (st : CommState) (function : List Nat) (data : List Nat) :
    Option (CommState × List Nat) :=
  if st.ready then
    if function.length < 256 then
      some (st, FUNCTION_HEADER :: function.length ::
        (function ++ le16bytes (data.length % 65536) ++ data ++ [END]))
    else none
  else some (st, [])

/-- `SerialComm::read` (read-and-dispatch), one call per main-loop
iteration.  Mirrors the `match rx.read_n(1).map(|e| e[0])` arms of
src/serial.rs.  Every `.unwrap()` of the source is modelled by a
`panicked` outcome on the error side.  Handler-internal diagnostics
(`trace!` in `set_led`, `debug!` in `reset`) are recorded as `Diag`s at the
dispatch arm.  Name lookup is `function.as_str()` string match; on valid
UTF-8 input this coincides with byte-exact comparison against the ASCII
encodings of the table names, since UTF-8 decoding is injective. -/
def read (st : CommState) (s : Oracle) : ReadOutcome :=
  match read_n 1 s with
  | (Except.error _, s1) =>
      -- `Err(error) => error!("Error reading from serial: ...")`
      ReadOutcome.ret st ⟨[], [Diag.error], [], []⟩ s1
  | (Except.ok data0, s1) =>
      let b := data0.headD 0
      if b = READY then
        -- respond back with ready
        let hr := handshakeReply st
        ReadOutcome.ret hr.1 ⟨hr.2, [], [], []⟩ s1
      else if b = FUNCTION_HEADER then
        match read_n_blocking 1 s1 with
        | BRes.err _ => ReadOutcome.panicked ⟨[], [], [], []⟩
        | BRes.stall => ReadOutcome.stalled ⟨[], [], [], []⟩
        | BRes.ok fl s2 =>
          let function_len := fl.headD 0
          -- info!("got function length of {function_len}")
          match read_n_blocking function_len s2 with
          | BRes.err _ => ReadOutcome.panicked ⟨[], [Diag.info], [], []⟩
          | BRes.stall => ReadOutcome.stalled ⟨[], [Diag.info], [], []⟩
          | BRes.ok nameBytes s3 =>
            if isValidUtf8 nameBytes = false then
              -- String::from_utf8(..).unwrap() fails
              ReadOutcome.panicked ⟨[], [Diag.info], [], []⟩
            else
              -- info!("got function {function}")
              match read_n_blocking 2 s3 with
              | BRes.err _ => ReadOutcome.panicked ⟨[], [Diag.info, Diag.info], [], []⟩
              | BRes.stall => ReadOutcome.stalled ⟨[], [Diag.info, Diag.info], [], []⟩
              | BRes.ok dl s4 =>
                let data_len := dl.headD 0 + 256 * dl.tail.headD 0
                -- info!("got data length of {data_len}")
                match read_n_blocking data_len s4 with
                | BRes.err _ =>
                    ReadOutcome.panicked ⟨[], [Diag.info, Diag.info, Diag.info], [], []⟩
                | BRes.stall =>
                    ReadOutcome.stalled ⟨[], [Diag.info, Diag.info, Diag.info], [], []⟩
                | BRes.ok data s5 =>
                  -- read end
                  match read_n_blocking 1 s5 with
                  | BRes.err _ =>
                      ReadOutcome.panicked ⟨[], [Diag.info, Diag.info, Diag.info], [], []⟩
                  | BRes.stall =>
                      ReadOutcome.stalled ⟨[], [Diag.info, Diag.info, Diag.info], [], []⟩
                  | BRes.ok _ s6 =>
                    if nameBytes = asciiBytes "set_led" then
                      let r := set_led data st.led
                      ReadOutcome.ret ⟨st.ready, r.2⟩
                        ⟨RETURN_HEADER :: r.1,
                         [Diag.info, Diag.info, Diag.info, Diag.trace],
                         [(nameBytes, data)], []⟩ s6
                    else if nameBytes = asciiBytes "reset" then
                      ReadOutcome.restarted
                        ⟨[], [Diag.info, Diag.info, Diag.info, Diag.debug],
                         [(nameBytes, data)], reset data⟩
                    else
                      -- warn!("Function {function} does not exist"); empty reply
                      ReadOutcome.ret st
                        ⟨RETURN_HEADER :: [],
                         [Diag.info, Diag.info, Diag.info, Diag.warn],
                         [(nameBytes, data)], []⟩ s6
      else if b = END then
        ReadOutcome.ret st ⟨[], [], [], []⟩ s1
      else
        -- warn!("Received invalid event {b}") then flush loop
        match flushBuffer s1 with
        | none => ReadOutcome.panicked ⟨[], [Diag.warn], [], []⟩
        | some s2 => ReadOutcome.ret st ⟨[], [Diag.warn], [], []⟩ s2

end SerialComm

namespace SerialLogger

/-- The payload built by `SerialLogger::log` (src/logger.rs) from the UTF-8
bytes of the level name and of the formatted message:
`vec![level.len() as u8]`, the level bytes, `(content.len() as u16)` in
little-endian, the message bytes. -/
def logPayload (level content : List Nat) : List Nat :=
  (level.length % 256) :: (level ++ le16bytes (content.length % 65536) ++ content)

/-- `SerialLogger::log` for one record that passed the `log` crate's
severity filter: if the sink is bound (`serial_comm.is_some()`), forward the
formatted payload through `SerialComm::call` under the name "log";
otherwise do nothing. -/
def logRecord (bound : Bool) (st : CommState) (level content : List Nat) :
    Option (CommState × List Nat) :=
  if bound then SerialComm.call st (asciiBytes "log") (logPayload level content)
  else some (st, [])

end SerialLogger

/-- A host-side chunk: the oracle response carrying `bs` in one full read;
absent when `bs` is empty, since a zero-length `read_n_blocking` never
touches the transport. -/
def chunk (bs : List Nat) : Oracle := if bs = [] then [] else [ReadResp.ok bs]

/-- The oracle presentation of one well-formed Function-call frame
`[0x02][name_len:u8][name][payload_len:u16 LE][payload][0x00]`, each
sub-read served in full, followed by the responses `rest`. -/
def frameStream (name payload : List Nat) (rest : Oracle) : Oracle :=
  ReadResp.ok [FUNCTION_HEADER] :: ReadResp.ok [name.length] ::
    (chunk name ++ (ReadResp.ok (le16bytes payload.length) ::
      (chunk payload ++ (ReadResp.ok [END] :: rest))))

theorem read_n_one (b : Nat) (s : Oracle) :
    read_n 1 (ReadResp.ok [b] :: s) = (Except.ok [b], s) := by
  simp [read_n]

theorem read_n_blocking_full (bs : List Nat) (s : Oracle) (h : bs ≠ []) :
    read_n_blocking bs.length (ReadResp.ok bs :: s) = BRes.ok bs s := by
  cases bs with
  | nil => exact absurd rfl h
  | cons a l =>
    simp [read_n_blocking, read_n_blocking_go, List.take_length]

theorem read_n_blocking_chunkL (bs : List Nat) (s : Oracle) :
    read_n_blocking bs.length (chunk bs ++ s) = BRes.ok bs s := by
  cases bs with
  | nil => simp [chunk, read_n_blocking]
  | cons a l => simpa [chunk] using read_n_blocking_full (a :: l) s (by simp)

theorem read_n_blocking_single (b : Nat) (s : Oracle) :
    read_n_blocking 1 (ReadResp.ok [b] :: s) = BRes.ok [b] s :=
  read_n_blocking_full [b] s (by simp)

theorem read_n_blocking_pair (b c : Nat) (s : Oracle) :
    read_n_blocking 2 (ReadResp.ok [b, c] :: s) = BRes.ok [b, c] s :=
  read_n_blocking_full [b, c] s (by simp)

theorem set_led_fst (p : List Nat) (led : Bool) : (set_led p led).1 = [] := by
  unfold set_led
  split
  · split <;> rfl
  · rfl

/-- Master parse lemma: dispatching one fully served well-formed
Function-call frame.  A valid-UTF-8 name reaches the dispatch match with
exactly the payload the host sent and leaves exactly `rest` unread;
`set_led` and unknown names return normally after writing the reply header,
`reset` restarts the device without replying. -/
theorem read_frame (st : CommState) (name payload : List Nat) (rest : Oracle)
    (hv : isValidUtf8 name = true) :
    SerialComm.read st (frameStream name payload rest) =
      if name = asciiBytes "set_led" then
        ReadOutcome.ret ⟨st.ready, (set_led payload st.led).2⟩
          ⟨[RETURN_HEADER], [Diag.info, Diag.info, Diag.info, Diag.trace],
           [(name, payload)], []⟩ rest
      else if name = asciiBytes "reset" then
        ReadOutcome.restarted
          ⟨[], [Diag.info, Diag.info, Diag.info, Diag.debug],
           [(name, payload)], reset payload⟩
      else
        ReadOutcome.ret st
          ⟨[RETURN_HEADER], [Diag.info, Diag.info, Diag.info, Diag.warn],
           [(name, payload)], []⟩ rest := by
  unfold frameStream SerialComm.read
  rw [read_n_one]
  simp only [List.headD, le16bytes, READY, FUNCTION_HEADER, Nat.mod_add_div, hv,
    read_n_blocking_single, read_n_blocking_pair, read_n_blocking_chunkL, List.tail,
    Nat.reduceEqDiff, if_true, if_false, Bool.true_eq_false, reduceIte]
  split
  · simp [set_led_fst]
  · rfl

theorem ready_frame_eq (st : CommState) (s : Oracle) :
    SerialComm.read st (ReadResp.ok [READY] :: s) =
      ReadOutcome.ret ⟨true, st.led⟩ ⟨[READY], [], [], []⟩ s := by
  simp [SerialComm.read, read_n_one, SerialComm.handshakeReply, READY]

/-- Shape of every normal return of `SerialComm::read`: the post-state keeps
the `ready` flag unchanged, except in the Ready-handshake arm, which sets it
and whose only write is the `READY` reply byte. -/
theorem read_ready_shape (st : CommState) (s : Oracle) (st2 : CommState) (eff : Effects)
    (rest : Oracle) (h : SerialComm.read st s = ReadOutcome.ret st2 eff rest) :
    st2.ready = st.ready ∨ (st2.ready = true ∧ eff.written = [READY]) := by
  unfold SerialComm.read at h
  repeat' split at h
  all_goals try simp only [] at h
  all_goals try split_ifs at h
  all_goals repeat' split at h
  all_goals try simp only [ReadOutcome.ret.injEq, SerialComm.handshakeReply] at h
  all_goals try obtain ⟨rfl, rfl, rfl⟩ := h
  all_goals simp_all

/-- C1 (counterexample): the claim that EVERY transport read failure during
read-and-dispatch returns normally is false.  On the concrete oracle
`[ok [FUNCTION_HEADER], err]` — a Function-call event byte whose name-length
sub-read then fails — `SerialComm::read` hits
`rx.read_n_blocking(1).unwrap()` and panics instead of returning: the error
unwinds past read-and-dispatch with no diagnostic. -/
theorem c1_counterexample :
    SerialComm.read ⟨false, false⟩ [ReadResp.ok [FUNCTION_HEADER], ReadResp.err] =
        ReadOutcome.panicked ⟨[], [], [], []⟩
      ∧ (SerialComm.read ⟨false, false⟩
          [ReadResp.ok [FUNCTION_HEADER], ReadResp.err]).isNormalReturn = false := by
  constructor <;> decide

/-- C1 (amended): a transport read failure on the initial non-blocking
event-byte read emits an error diagnostic, abandons the parse and returns
normally with no other side effect; but a transport failure during the
blocking sub-reads of a Function-call frame is not recovered — the
`.unwrap()` panics, so the operation does not return normally there. -/
theorem c1_read_failure_handling (st : CommState) (rest : Oracle) :
    SerialComm.read st (ReadResp.err :: rest) =
        ReadOutcome.ret st ⟨[], [Diag.error], [], []⟩ rest
      ∧ SerialComm.read st (ReadResp.ok [FUNCTION_HEADER] :: ReadResp.err :: rest) =
        ReadOutcome.panicked ⟨[], [], [], []⟩ := by
  constructor
  · simp [SerialComm.read, read_n]
  · simp [SerialComm.read, read_n_one, read_n_blocking, read_n_blocking_go,
      READY, FUNCTION_HEADER]

/-- C2: with `ready == true` and a name that fits the one-byte length field,
send-command writes exactly the Function-call byte, the one-byte name
length, the name bytes, the two-byte little-endian payload length, the
payload bytes, and the End-marker byte. -/
theorem c2_send_command_wire_format (led : Bool) (name data : List Nat)
    (h1 : name.length < 256) (h2 : data.length < 65536) :
    SerialComm.call ⟨true, led⟩ name data =
      some (⟨true, led⟩,
        FUNCTION_HEADER :: name.length :: (name ++ le16bytes data.length ++ data ++ [END])) := by
  simp [SerialComm.call, h1, Nat.mod_eq_of_lt h2]

/-- C2 (witness): `send-command("ping", [7,8])` with `ready == true`
produces exactly `[0x02, 4, 'p','i','n','g', 2,0, 7,8, 0x00]`. -/
theorem c2_witness :
    (asciiBytes "ping").length < 256 ∧ ([7, 8] : List Nat).length < 65536 ∧
    SerialComm.call ⟨true, false⟩ (asciiBytes "ping") [7, 8] =
      some (⟨true, false⟩, [0x02, 4, 112, 105, 110, 103, 2, 0, 7, 8, 0x00]) :=
  ⟨by decide, by decide, by
    rw [c2_send_command_wire_format false (asciiBytes "ping") [7, 8] (by decide) (by decide)]
    decide⟩

/-- C3: with `ready == false`, send-command is a no-op for every name and
payload: zero bytes are written and the channel state is returned
unchanged. -/
theorem c3_send_command_noop_before_handshake (led : Bool) (name data : List Nat) :
    SerialComm.call ⟨false, led⟩ name data = some (⟨false, led⟩, []) := by
  simp [SerialComm.call]

/-- C4: lifecycle of the `ready` flag.  (1) it is false at channel creation;
(2) handshake-reply sets it true and writes the Ready byte; (3) no normal
return of read-and-dispatch ever clears a true flag; (4) the flag becomes
true only in a return whose write effect is exactly the Ready-handshake
reply byte; (5, 6) reply writes and send-command never change the state;
(7) a received Ready-handshake frame always yields `ready = true`, so after
two consecutive Ready-handshake frames the flag is true after either —
the handshake is idempotent. -/
theorem c4_ready_lifecycle :
    (∀ led, (SerialComm.mkChannel led).ready = false)
    ∧ (∀ st, (SerialComm.handshakeReply st).1.ready = true
        ∧ (SerialComm.handshakeReply st).2 = [READY])
    ∧ (∀ st s st2 eff rest, SerialComm.read st s = ReadOutcome.ret st2 eff rest →
        st.ready = true → st2.ready = true)
    ∧ (∀ st s st2 eff rest, SerialComm.read st s = ReadOutcome.ret st2 eff rest →
        st2.ready = true → st.ready = true ∨ eff.written = [READY])
    ∧ (∀ st data, (SerialComm.return_event st data).1 = st)
    ∧ (∀ st name data res, SerialComm.call st name data = some res → res.1 = st)
    ∧ (∀ st s, SerialComm.read st (ReadResp.ok [READY] :: s) =
        ReadOutcome.ret ⟨true, st.led⟩ ⟨[READY], [], [], []⟩ s) := by
  refine ⟨fun led => rfl, fun st => ⟨rfl, rfl⟩, ?_, ?_, fun st data => rfl, ?_, ready_frame_eq⟩
  · intro st s st2 eff rest h hr
    rcases read_ready_shape st s st2 eff rest h with h1 | ⟨h1, _⟩
    · exact h1.trans hr
    · exact h1
  · intro st s st2 eff rest h hr
    rcases read_ready_shape st s st2 eff rest h with h1 | ⟨_, h2⟩
    · exact Or.inl (h1 ▸ hr)
    · exact Or.inr h2
  · intro st name data res h
    unfold SerialComm.call at h
    split_ifs at h
    · cases h; rfl
    · cases h; rfl

/-- C4 (witness): the no-reset clause applied at a concrete ready channel
and a concrete erroring oracle — the flag stays true. -/
theorem c4_witness :
    SerialComm.read ⟨true, true⟩ [ReadResp.err] =
        ReadOutcome.ret ⟨true, true⟩ ⟨[], [Diag.error], [], []⟩ []
    ∧ (⟨true, true⟩ : CommState).ready = true
    ∧ ((⟨true, true⟩ : CommState) : CommState).ready = true :=
  ⟨by decide, rfl,
    c4_ready_lifecycle.2.2.1 ⟨true, true⟩ [ReadResp.err] ⟨true, true⟩
      ⟨[], [Diag.error], [], []⟩ [] (by decide) rfl⟩

/-- C5 (counterexample): the claim, quantified over every Function-call
frame, is false.  On the well-formed frame `[0x02, 1, 0xFF, 1, 0, 7, 0x00]`
(name length 1, name byte 0xFF, payload `[7]`, End marker) the dispatcher
panics in `String::from_utf8(..).unwrap()` right after the name sub-read:
the payload-length, payload and End-marker reads never happen (their oracle
responses are never consumed), nothing is dispatched, and no handler
receives the payload the host sent. -/
theorem c5_counterexample :
    SerialComm.read ⟨false, false⟩ (frameStream [0xFF] [7] []) =
        ReadOutcome.panicked ⟨[], [Diag.info], [], []⟩
      ∧ (SerialComm.read ⟨false, false⟩ (frameStream [0xFF] [7] [])).effOf.dispatched = []
      ∧ (SerialComm.read ⟨false, false⟩ (frameStream [0xFF] [7] [])).isNormalReturn = false := by
  refine ⟨by decide, by decide, by decide⟩

/-- C5 (amended): on a Function-call event byte whose name bytes are valid
UTF-8 (every Command Table name is ASCII; non-UTF-8 names panic before the
frame is fully read, see the counterexample), read-and-dispatch consumes,
with busy-retry blocking semantics, exactly the one name-length byte, the
name bytes, the two little-endian payload-length bytes, the payload bytes
and one End-marker byte — leaving exactly the succeeding oracle responses
unread (unless the handler is the never-returning `reset`) — and the
dispatch match receives exactly the payload bytes the host sent.  The
second conjunct is the busy-retry law: a zero-byte read is retried
transparently. -/
theorem c5_function_frame_exact_consumption (st : CommState) (name payload : List Nat)
    (rest : Oracle) (hv : isValidUtf8 name = true) :
    ((SerialComm.read st (frameStream name payload rest)).effOf.dispatched = [(name, payload)]
      ∧ ((SerialComm.read st (frameStream name payload rest)).restOf = some rest
          ∨ name = asciiBytes "reset"))
    ∧ (∀ n s, read_n_blocking (n + 1) (ReadResp.ok [] :: s) = read_n_blocking (n + 1) s) := by
  constructor
  · rw [read_frame st name payload rest hv]
    split
    · simp [ReadOutcome.effOf, ReadOutcome.restOf]
    · split
      · simp [ReadOutcome.effOf, ReadOutcome.restOf, *]
      · simp [ReadOutcome.effOf, ReadOutcome.restOf]
  · intro n s
    simp [read_n_blocking, read_n_blocking_go]

/-- C5 (witness): the concrete set_led frame with payload `[1]`. -/
theorem c5_witness :
    isValidUtf8 (asciiBytes "set_led") = true
    ∧ (SerialComm.read ⟨false, false⟩
        (frameStream (asciiBytes "set_led") [1] [])).effOf.dispatched =
      [(asciiBytes "set_led", [1])] :=
  ⟨by decide,
    (c5_function_frame_exact_consumption ⟨false, false⟩ (asciiBytes "set_led") [1] []
      (by decide)).1.1⟩

/-- C6 (counterexample): the claim fails for a well-formed frame whose name
bytes are not valid UTF-8.  The frame `[0x02, 1, 0xFF, 0, 0, 0x00]` (name
length 1, name byte 0xFF, empty payload, End marker) carries a name that is
in no Command Table, yet the dispatcher panics in
`String::from_utf8(..).unwrap()` instead of warning and replying: no
Function-return frame is written. -/
theorem c6_counterexample :
    SerialComm.read ⟨false, false⟩ (frameStream [0xFF] [] []) =
        ReadOutcome.panicked ⟨[], [Diag.info], [], []⟩
      ∧ (SerialComm.read ⟨false, false⟩ (frameStream [0xFF] [] [])).isNormalReturn = false
      ∧ (SerialComm.read ⟨false, false⟩ (frameStream [0xFF] [] [])).effOf.written = [] := by
  refine ⟨by decide, by decide, by decide⟩

/-- C6 (amended): for every well-formed Function-call frame whose name bytes
are valid UTF-8 and name a function outside the Command Table, the
dispatcher does not crash: it returns normally, emits a warning diagnostic,
and still writes a Function-return frame with an empty payload — the single
byte 0x03. -/
theorem c6_unknown_function_replies (st : CommState) (name payload : List Nat)
    (rest : Oracle) (hv : isValidUtf8 name = true)
    (h1 : name ≠ asciiBytes "set_led") (h2 : name ≠ asciiBytes "reset") :
    SerialComm.read st (frameStream name payload rest) =
      ReadOutcome.ret st
        ⟨[RETURN_HEADER], [Diag.info, Diag.info, Diag.info, Diag.warn],
         [(name, payload)], []⟩ rest := by
  rw [read_frame st name payload rest hv, if_neg h1, if_neg h2]

/-- C6 (witness): the unknown name "foo" with payload `[9]` warns and
replies `[0x03]`. -/
theorem c6_witness :
    isValidUtf8 (asciiBytes "foo") = true
    ∧ asciiBytes "foo" ≠ asciiBytes "set_led"
    ∧ asciiBytes "foo" ≠ asciiBytes "reset"
    ∧ SerialComm.read ⟨true, false⟩ (frameStream (asciiBytes "foo") [9] []) =
        ReadOutcome.ret ⟨true, false⟩
          ⟨[RETURN_HEADER], [Diag.info, Diag.info, Diag.info, Diag.warn],
           [(asciiBytes "foo", [9])], []⟩ [] :=
  ⟨by decide, by decide, by decide,
    c6_unknown_function_replies ⟨true, false⟩ (asciiBytes "foo") [9] []
      (by decide) (by decide) (by decide)⟩

/-- C7: `set_led` always replies with an empty payload; an empty payload
toggles the indicator, a leading 0 byte turns it off, and any non-zero
leading byte (`x + 1` covers them all) turns it on. -/
theorem c7_set_led_semantics (p r : List Nat) (led : Bool) (x : Nat) :
    (set_led p led).1 = []
    ∧ (set_led [] led).2 = !led
    ∧ (set_led (0 :: r) led).2 = false
    ∧ (set_led ((x + 1) :: r) led).2 = true := by
  refine ⟨set_led_fst p led, by simp [set_led], by simp [set_led], by simp [set_led]⟩

/-- C8: `reset` ignores its payload, performs exactly 11 indicator toggles
each followed by an 84 ms delay, and then the system reset; at the
dispatcher, a "reset" Function-call frame ends in the `restarted` outcome
with zero bytes written — no Function-return frame is ever sent for a reset
invocation, and control never returns to the dispatcher. -/
theorem c8_reset_semantics (p q : List Nat) (st : CommState) (rest : Oracle) :
    reset p = reset q
    ∧ reset p =
        List.flatten (List.replicate 11 [HwAction.toggle, HwAction.delayMs 84])
          ++ [HwAction.sysReset]
    ∧ (reset p).count HwAction.toggle = 11
    ∧ SerialComm.read st (frameStream (asciiBytes "reset") p rest) =
        ReadOutcome.restarted
          ⟨[], [Diag.info, Diag.info, Diag.info, Diag.debug],
           [(asciiBytes "reset", p)], reset p⟩ := by
  refine ⟨rfl, rfl, rfl, ?_⟩
  rw [read_frame st (asciiBytes "reset") p rest (by decide),
    if_neg (by decide : ¬(asciiBytes "reset" = asciiBytes "set_led")), if_pos rfl]

/-- C9: a log record that passed the severity filter, on a bound sink, is
formatted as the one-byte level length, the level bytes, the two-byte
little-endian message length and the message bytes, and is forwarded
through send-command under the name "log"; the level-"INFO",
message-"hi" record yields payload `[4,'I','N','F','O',2,0,'h','i']`, and
on a ready channel the full framed wire write of that record. -/
theorem c9_log_sink_format (st : CommState) (level msg : List Nat) :
    SerialLogger.logRecord true st level msg =
      SerialComm.call st (asciiBytes "log")
        ((level.length % 256) :: (level ++ le16bytes (msg.length % 65536) ++ msg))
    ∧ SerialLogger.logPayload (asciiBytes "INFO") (asciiBytes "hi") =
        [4, 73, 78, 70, 79, 2, 0, 104, 105]
    ∧ SerialLogger.logRecord true ⟨true, false⟩ (asciiBytes "INFO") (asciiBytes "hi") =
        some (⟨true, false⟩,
          [0x02, 3, 108, 111, 103, 9, 0, 4, 73, 78, 70, 79, 2, 0, 104, 105, 0x00]) := by
  refine ⟨rfl, by decide, by decide⟩

/-- C10: Function-return frames are not gated by the `ready` flag: the reply
write of `return_event` is the header byte plus the raw handler output and
does not consult or change the state; a dispatched set_led frame on a
channel still awaiting the handshake (`ready = false`) has its reply
`[0x03]` written anyway, while `send-command` on the same state writes
nothing. -/
theorem c10_reply_not_gated_by_ready (st : CommState) (d : List Nat) (led : Bool)
    (payload name2 data2 : List Nat) (rest : Oracle) :
    SerialComm.return_event st d = (st, RETURN_HEADER :: d)
    ∧ SerialComm.read ⟨false, led⟩ (frameStream (asciiBytes "set_led") payload rest) =
        ReadOutcome.ret ⟨false, (set_led payload led).2⟩
          ⟨[RETURN_HEADER], [Diag.info, Diag.info, Diag.info, Diag.trace],
           [(asciiBytes "set_led", payload)], []⟩ rest
    ∧ SerialComm.call ⟨false, led⟩ name2 data2 = some (⟨false, led⟩, []) := by
  refine ⟨rfl, ?_, by simp [SerialComm.call]⟩
  rw [read_frame ⟨false, led⟩ (asciiBytes "set_led") payload rest (by decide), if_pos rfl]
